import Mathlib

/-!
# Verification of the wstest SFU signaling core (src/main.go)

This file is a shallow embedding of the session-lifecycle / signaling layer of
the repository's `main.go` into Lean 4, together with theorems settling the
frozen claims about it.

Embedding conventions:

* The Go process state (`publishers`, `viewers` maps plus the per-client
  gorilla session values) is modeled as `ServerState`, a pair of association
  lists keyed by the opaque session id.  In the Go code the entry stored under
  `session.Values["Publisher"]` and the entry stored in the global `publishers`
  map are the same heap object (both are written at creation time in
  `lookupPublisher`), so the embedding keeps a single keyed store per role and
  threads updates through it explicitly; cookie serialization of the session
  is abstracted to this server-side keyed store.
* `webrtc.PeerConnection` (the Transport Engine of the spec) is modeled as an
  explicit record of the facts the handlers establish about it: the remote /
  local descriptions, the candidates applied with `AddICECandidate`, the
  number of local tracks added, and whether it was closed.  Engine-internal
  failure modes (the 500 paths) are outside the modeled claims and the engine
  operations are modeled as succeeding.  `createAnswer` is modeled from the
  spec: the Transport Engine produces a description of type `"answer"`.
* Each HTTP handler becomes a pure function from `ServerState` and a decoded
  request to `(RW, ServerState, List EngineCall)`, where `RW` models Go's
  `http.ResponseWriter` (including the fact that the status code and the
  headers are committed at the first body write, after which `WriteHeader`
  and `Header().Set` have no effect on the wire) and the `EngineCall` trace
  records the calls the handler makes into the Transport Engine, in order.
* Go's type assertion `p.(*Publisher)` on a nil interface value panics; this
  is modeled with `Except GoPanic`.
* Mutexes are not modeled: handlers are atomic steps of the model, and the
  asynchronous Transport Engine callbacks (`OnICECandidate`,
  `OnConnectionStateChange`, `OnTrack`) are separate step functions on the
  session records, applied between handler steps.
-/

set_option autoImplicit false

namespace Wstest

/-- `webrtc.SessionDescription`: the `Type` field (as its string form) and the
`SDP` payload. -/
structure SessionDescription where
  sdpType : String
  sdp : String
deriving DecidableEq, Repr

/-- `webrtc.ICECandidateInit`: a connectivity candidate as posted/polled over
the HTTP candidate-exchange endpoints. -/
structure ICECandidateInit where
  candidate : String
  sdpMid : Option String := none
  sdpMLineIndex : Option Nat := none
deriving DecidableEq, Repr

/-- The body of a POST to `/publish` or `/view`, before JSON decoding.
`invalidJson` stands for a body `json.Decoder.Decode` rejects outright;
`sessionDesc ty sdp` stands for a JSON object with the given `type` and `sdp`
string fields. -/
inductive OfferBody where
  | invalidJson
  | sessionDesc (ty : String) (sdp : String)
deriving DecidableEq, Repr

/-- The body of a POST to `/ice-candidate-p` or `/ice-candidate-v`. -/
inductive CandidateBody where
  | invalidJson
  | candidateJson (c : ICECandidateInit)
deriving DecidableEq, Repr

/-- The strings accepted by pion's `SDPType` JSON decoding (`NewSDPType`);
any other `type` string makes `json.Decode` of a `SessionDescription` fail
with `ErrUnknownType`. -/
def isValidSDPType (t : String) : Bool :=
  t == "offer" || t == "pranswer" || t == "answer" || t == "rollback"

/-- `json.NewDecoder(r.Body).Decode(&offer)` in `publishHandler` (main.go:130)
and `viewHandler` (main.go:371): fails on unparsable JSON and on an
unrecognized SDP type string. -/
def decodeSessionDescription : OfferBody → Option SessionDescription
  | .invalidJson => none
  | .sessionDesc ty sdp => if isValidSDPType ty then some ⟨ty, sdp⟩ else none

/-- `json.NewDecoder(r.Body).Decode(&candidate)` in the candidate handlers
(main.go:545, main.go:597). -/
def decodeCandidate : CandidateBody → Option ICECandidateInit
  | .invalidJson => none
  | .candidateJson c => some c

/-- The Go runtime panic raised by `p.(*Publisher)` when the interface value
is nil (main.go:344 with `session.Values["Publisher"]` absent). -/
inductive GoPanic where
  | nilInterfaceConversion
deriving DecidableEq, Repr

/-- `webrtc.PeerConnectionState` (the overall-connection-state reported to
`OnConnectionStateChange`). -/
inductive PeerConnectionState where
  | new
  | connecting
  | connected
  | disconnected
  | failed
  | closed
deriving DecidableEq, Repr

/-- The kinds of Transport Engine callbacks the handlers register. -/
inductive CallbackKind where
  | iceConnState
  | iceCandidate
  | connState
  | track
deriving DecidableEq, Repr

/-- One call made by a handler into the Transport Engine, in program order. -/
inductive EngineCall where
  | newPeerConnection
  | addTrack
  | registerCallback (k : CallbackKind)
  | setRemoteDescription (sd : SessionDescription)
  | createAnswer
  | setLocalDescription (sd : SessionDescription)
  | addICECandidate (c : ICECandidateInit)
  | close
deriving DecidableEq, Repr

def EngineCall.isRegister : EngineCall → Bool
  | .registerCallback _ => true
  | _ => false

def EngineCall.isSetRemote : EngineCall → Bool
  | .setRemoteDescription _ => true
  | _ => false

def EngineCall.isAddICECandidate : EngineCall → Bool
  | .addICECandidate _ => true
  | _ => false

/-! ## The `http.ResponseWriter` model

In Go's `net/http`, the response status and the header map are sent on the
wire at the first call to `Write` or `WriteHeader`; later `WriteHeader` calls
and header mutations are ignored.  `RW` records the header map's
`Content-Type` entry, the committed status / committed `Content-Type`
(the values actually on the wire), and the body chunks written. -/

structure RW where
  headerContentType : Option String := none
  committedStatus : Option Nat := none
  committedContentType : Option String := none
  body : List String := []
deriving DecidableEq, Repr

def RW.init : RW := {}

/-- `w.Header().Set("Content-Type", ct)`: mutates the header map; has no
effect on what was already committed. -/
def RW.setContentType (w : RW) (ct : String) : RW :=
  { w with headerContentType := some ct }

/-- `w.WriteHeader(code)`: commits the status and the current header map,
unless a commit already happened (then it is the "superfluous
WriteHeader" no-op). -/
def RW.writeHeader (w : RW) (code : Nat) : RW :=
  if w.committedStatus.isSome then w
  else { w with committedStatus := some code,
                committedContentType := w.headerContentType }

/-- `w.Write`/`fmt.Fprintf(w, ...)`: commits status 200 if nothing was
committed yet, then appends the chunk to the body. -/
def RW.write (w : RW) (chunk : String) : RW :=
  let w' := w.writeHeader 200
  { w' with body := w'.body ++ [chunk] }

/-- `http.Error(w, msg, code)`: sets `Content-Type: text/plain`, writes the
header with `code`, then writes the message line. -/
def httpError (w : RW) (msg : String) (code : Nat) : RW :=
  ((w.setContentType "text/plain; charset=utf-8").writeHeader code).write
    (msg ++ "\n")

def writeAll (w : RW) (chunks : List String) : RW :=
  chunks.foldl RW.write w

/-- The `fmt.Fprintf(w, "Cookie Name: %s, Value: %s\n", ...)` loop of
`publishHandler` (main.go:124-126), one body chunk per request cookie. -/
def cookieEcho (cookies : List (String × String)) : List String :=
  cookies.map (fun c => "Cookie Name: " ++ c.1 ++ ", Value: " ++ c.2 ++ "\n")

/-! ## Sessions and the Transport Engine state -/

/-- `webrtc.TrackLocalStaticRTP`: the shared forwarding sink. -/
structure TrackLocalStaticRTP where
  mimeType : String
deriving DecidableEq, Repr

/-- The facts the handlers establish about one `webrtc.PeerConnection`. -/
structure PeerConnection where
  remoteDescription : Option SessionDescription := none
  localDescription : Option SessionDescription := none
  addedCandidates : List ICECandidateInit := []
  localTracks : Nat := 0
  closed : Bool := false
deriving DecidableEq, Repr

def PeerConnection.init : PeerConnection := {}

/-- The `Publisher` struct of main.go (locks omitted; see the header note). -/
structure Publisher where
  publisherTrack : Option TrackLocalStaticRTP := none
  peerConnectionPublisher : Option PeerConnection := none
  iceCandidatesP : List ICECandidateInit := []
  pendingRemoteCandidatesP : List ICECandidateInit := []
  Valid : Bool := false
deriving DecidableEq, Repr

def Publisher.init : Publisher := {}

/-- The `Viewer` struct of main.go. -/
structure Viewer where
  peerConnectionViewer : Option PeerConnection := none
  iceCandidatesV : List ICECandidateInit := []
  pendingRemoteCandidatesV : List ICECandidateInit := []
  valid : Bool := false
deriving DecidableEq, Repr

def Viewer.init : Viewer := {}

/-- The global registries `publishers` / `viewers` (keyed by session id),
merged with the per-client session values as explained in the header. -/
structure ServerState where
  publishers : List (String × Publisher) := []
  viewers : List (String × Viewer) := []
deriving DecidableEq, Repr

def ServerState.init : ServerState := {}

/-- Keyed lookup in an association list (Go map read). -/
def getAssoc {α : Type} : List (String × α) → String → Option α
  | [], _ => none
  | (k, v) :: rest, sid => if k = sid then some v else getAssoc rest sid

/-- Keyed in-place update of an existing entry (Go map write for a present
key; the handlers only ever update keys their lookup just ensured exist). -/
def setAssoc {α : Type} : List (String × α) → String → α → List (String × α)
  | [], _, _ => []
  | (k, v) :: rest, sid, a =>
      if k = sid then (k, a) :: rest else (k, v) :: setAssoc rest sid a

def setPublisher (st : ServerState) (sid : String) (p : Publisher) : ServerState :=
  { st with publishers := setAssoc st.publishers sid p }

def setViewer (st : ServerState) (sid : String) (v : Viewer) : ServerState :=
  { st with viewers := setAssoc st.viewers sid v }

/-- `lookupPublisher(w, r, caller, create)` (main.go:333-361).  With
`create = true` an absent entry is created and registered; with
`create = false` the Go code runs `p.(*Publisher)` on the raw interface
value, which panics when the entry is absent (the nil interface conversion),
so the `p == nil` checks at the call sites are unreachable. -/
def lookupPublisher (st : ServerState) (sid : String) (create : Bool) :
    Except GoPanic (Publisher × ServerState) :=
  match getAssoc st.publishers sid with
  | some p => .ok (p, st)
  | none =>
      if create then
        .ok (Publisher.init,
          { st with publishers := st.publishers ++ [(sid, Publisher.init)] })
      else
        .error .nilInterfaceConversion

/-- `lookupViewer(w, r)` (main.go:310-331): create-on-read, no panic path. -/
def lookupViewer (st : ServerState) (sid : String) : Viewer × ServerState :=
  match getAssoc st.viewers sid with
  | some v => (v, st)
  | none =>
      (Viewer.init,
        { st with viewers := st.viewers ++ [(sid, Viewer.init)] })

/-- `randPublisher()` (main.go:479-486): returns some publisher with
`Valid == true`, or nil.  (Go map iteration order is arbitrary; the model
fixes list order, which the theorems do not rely on.) -/
def randPublisher (st : ServerState) : Option Publisher :=
  match st.publishers.find? (fun pr => pr.2.Valid) with
  | some pr => some pr.2
  | none => none

/-! ## Transport Engine callbacks registered by the handlers

These are the closure bodies the handlers install; the engine invokes them
asynchronously, so they are separate step functions on the session records. -/

/-- The `OnICECandidate` closure of `publishHandler` (main.go:207-213):
a non-nil discovered candidate is appended to the outbound queue. -/
def onICECandidateP (p : Publisher) (c : Option ICECandidateInit) : Publisher :=
  match c with
  | some cand => { p with iceCandidatesP := p.iceCandidatesP ++ [cand] }
  | none => p

/-- The `OnICECandidate` closure of `viewHandler` (main.go:412-418). -/
def onICECandidateV (v : Viewer) (c : Option ICECandidateInit) : Viewer :=
  match c with
  | some cand => { v with iceCandidatesV := v.iceCandidatesV ++ [cand] }
  | none => v

/-- The `OnConnectionStateChange` closure of `publishHandler`
(main.go:215-236): `connected` sets `Valid`; `failed` and `closed` clear it.
The `return` statements in the Go closure only exit the closure; the three
conditions are mutually exclusive, so the effect is the same. -/
def onConnectionStateChangeP (p : Publisher) (s : PeerConnectionState) :
    Publisher :=
  let p1 := if s = PeerConnectionState.connected then { p with Valid := true } else p
  let p2 := if s = PeerConnectionState.failed then { p1 with Valid := false } else p1
  if s = PeerConnectionState.closed then { p2 with Valid := false } else p2

/-- The `OnConnectionStateChange` closure of `viewHandler`
(main.go:425-446). -/
def onConnectionStateChangeV (v : Viewer) (s : PeerConnectionState) : Viewer :=
  let v1 := if s = PeerConnectionState.connected then { v with valid := true } else v
  let v2 := if s = PeerConnectionState.failed then { v1 with valid := false } else v1
  if s = PeerConnectionState.closed then { v2 with valid := false } else v2

/-- A sequence of overall-connection-state reports from the engine, applied
in order to the publisher's callback. -/
def applyStatesP (p : Publisher) (evs : List PeerConnectionState) : Publisher :=
  evs.foldl onConnectionStateChangeP p

def applyStatesV (v : Viewer) (evs : List PeerConnectionState) : Viewer :=
  evs.foldl onConnectionStateChangeV v

/-- The `OnTrack` closure of `publishHandler` (main.go:239-274), restricted
to its session-state effect: lazily create the forwarding sink once (the RTP
relay loop it spawns is pure media I/O). -/
def onTrackPublisher (p : Publisher) (codec : String) : Publisher :=
  match p.publisherTrack with
  | none => { p with publisherTrack := some { mimeType := codec } }
  | some _ => p

/-! ## JSON encoding of responses -/

/-- `json.NewEncoder(w).Encode` of a `SessionDescription`. -/
def encodeSD (sd : SessionDescription) : String :=
  "\x7b\"type\":\"" ++ sd.sdpType ++ "\",\"sdp\":\"" ++ sd.sdp ++ "\"\x7d"

def encodeCandidate (c : ICECandidateInit) : String :=
  "\x7b\"candidate\":\"" ++ c.candidate ++ "\"\x7d"

/-- `json.NewEncoder(w).Encode` of a `[]webrtc.ICECandidateInit`. -/
def encodeCandidateList (cs : List ICECandidateInit) : String :=
  "[" ++ String.intercalate "," (cs.map encodeCandidate) ++ "]"

/-! ## The signaling handlers -/

/-- Modelled from the spec: the Transport Engine's `CreateAnswer` is external
to the repository; all the core relies on is that it produces a description
of type `"answer"` derived from the negotiated state. -/
def createAnswer (pc : PeerConnection) : SessionDescription :=
  { sdpType := "answer"
  , sdp := "v=0 answer-for " ++ ((pc.remoteDescription.map SessionDescription.sdp).getD "") }

structure PublishRequest where
  sessionId : String
  cookies : List (String × String)
  body : OfferBody
deriving DecidableEq, Repr

structure ViewRequest where
  sessionId : String
  body : OfferBody
deriving DecidableEq, Repr

structure CandidateRequest where
  sessionId : String
  body : CandidateBody
deriving DecidableEq, Repr

/-- `publishHandler` lines 136-274: media-engine setup, creation of the peer
connection (stored on the publisher at main.go:174), `AddTrack` of the
return track, and registration of the four callbacks — everything strictly
before `SetRemoteDescription`. -/
def publishSetup (p : Publisher) : Publisher × List EngineCall :=
  ({ p with peerConnectionPublisher := some { PeerConnection.init with localTracks := 1 } },
   [EngineCall.newPeerConnection, EngineCall.addTrack,
    EngineCall.registerCallback CallbackKind.iceConnState,
    EngineCall.registerCallback CallbackKind.iceCandidate,
    EngineCall.registerCallback CallbackKind.connState,
    EngineCall.registerCallback CallbackKind.track])

/-- `publishHandler` lines 276-299: `SetRemoteDescription(offer)`,
`CreateAnswer`, `SetLocalDescription(answer)`.  Note: nothing here (or
anywhere else in main.go) reads or drains `pendingRemoteCandidatesP`. -/
def publishFinish (p : Publisher) (offer : SessionDescription) :
    Publisher × SessionDescription × List EngineCall :=
  match p.peerConnectionPublisher with
  | none =>
      -- unreachable from publishHandler: publishSetup installed the connection
      (p, createAnswer PeerConnection.init, [])
  | some pc =>
      let pc1 := { pc with remoteDescription := some offer }
      let answer := createAnswer pc1
      let pc2 := { pc1 with localDescription := some answer }
      ({ p with peerConnectionPublisher := some pc2 }, answer,
       [EngineCall.setRemoteDescription offer, EngineCall.createAnswer,
        EngineCall.setLocalDescription answer])

/-- `publishHandler` (main.go:120-308).  Order of effects, as in the source:
session lookup with creation; cookie echo into the response body; offer
decoding (400 on failure); transport setup and callback registration; remote
description; answer; JSON response. -/
def publishHandler (st : ServerState) (req : PublishRequest) :
    RW × ServerState × List EngineCall :=
  match lookupPublisher st req.sessionId true with
  | .error _ => (RW.init, st, [])  -- unreachable: create=true never panics
  | .ok (p, st1) =>
      let w0 := writeAll RW.init (cookieEcho req.cookies)
      match decodeSessionDescription req.body with
      | none => (httpError w0 "Invalid offer" 400, st1, [])
      | some offer =>
          let s := publishSetup p
          let f := publishFinish s.1 offer
          let w1 := (w0.setContentType "application/json").write (encodeSD f.2.1)
          (w1, setPublisher st1 req.sessionId f.1, s.2 ++ f.2.2)

/-- `viewHandler` (main.go:364-477).  Order of effects, as in the source:
viewer lookup (create-on-read); offer decoding (400); creation of the peer
connection and storing it on the viewer (main.go:378-384) — before publisher
selection; selection via `randPublisher` and the track presence check (503
with the fresh connection left unclosed); `AddTrack`; callback registration;
remote description; answer; JSON response. -/
def viewHandler (st : ServerState) (req : ViewRequest) :
    RW × ServerState × List EngineCall :=
  let l := lookupViewer st req.sessionId
  let v := l.1
  let st1 := l.2
  match decodeSessionDescription req.body with
  | none => (httpError RW.init "Invalid offer" 400, st1, [])
  | some offer =>
      let v1 := { v with peerConnectionViewer := some PeerConnection.init }
      let st2 := setViewer st1 req.sessionId v1
      match randPublisher st2 with
      | none =>
          (httpError RW.init "No Publisher available" 503, st2,
           [EngineCall.newPeerConnection])
      | some p =>
          match p.publisherTrack with
          | none =>
              (httpError RW.init "No Publisher available" 503, st2,
               [EngineCall.newPeerConnection])
          | some _ =>
              let pc1 := { PeerConnection.init with
                localTracks := 1,
                remoteDescription := some offer }
              let answer := createAnswer pc1
              let pc2 := { pc1 with localDescription := some answer }
              let v2 := { v1 with peerConnectionViewer := some pc2 }
              let w := (RW.init.setContentType "application/json").write (encodeSD answer)
              (w, setViewer st2 req.sessionId v2,
               [EngineCall.newPeerConnection, EngineCall.addTrack,
                EngineCall.registerCallback CallbackKind.iceCandidate,
                EngineCall.registerCallback CallbackKind.iceConnState,
                EngineCall.registerCallback CallbackKind.connState,
                EngineCall.setRemoteDescription offer, EngineCall.createAnswer,
                EngineCall.setLocalDescription answer])

/-- `handleIceCandidatePublisher` (main.go:543-572): decode, read-only
lookup (panics on an absent publisher), buffer the candidate while the
remote description is unset, otherwise `AddICECandidate`. -/
def handleIceCandidatePublisher (st : ServerState) (req : CandidateRequest) :
    Except GoPanic (RW × ServerState × List EngineCall) :=
  match decodeCandidate req.body with
  | none => .ok (httpError RW.init "Invalid ICE candidate" 400, st, [])
  | some c =>
      match lookupPublisher st req.sessionId false with
      | .error e => .error e
      | .ok (p, st1) =>
          match p.peerConnectionPublisher with
          | none => .ok (RW.init, st1, [])
          | some pc =>
              match pc.remoteDescription with
              | none =>
                  .ok (RW.init,
                    setPublisher st1 req.sessionId
                      { p with pendingRemoteCandidatesP :=
                          p.pendingRemoteCandidatesP ++ [c] }, [])
              | some _ =>
                  let pc' := { pc with addedCandidates := pc.addedCandidates ++ [c] }
                  .ok (RW.init,
                    setPublisher st1 req.sessionId
                      { p with peerConnectionPublisher := some pc' },
                    [EngineCall.addICECandidate c])

/-- The poll swap of `handleIceCandidatesPublisher` (main.go:579-586): read
the queue, replace it with the empty one (Go `nil`; the subsequent
`nil → []` normalization is invisible in the list model). -/
def swapOutboundP (p : Publisher) : List ICECandidateInit × Publisher :=
  (p.iceCandidatesP, { p with iceCandidatesP := [] })

def swapOutboundV (v : Viewer) : List ICECandidateInit × Viewer :=
  (v.iceCandidatesV, { v with iceCandidatesV := [] })

/-- `handleIceCandidatesPublisher` (main.go:574-590). -/
def handleIceCandidatesPublisher (st : ServerState) (sid : String) :
    Except GoPanic (RW × ServerState) :=
  match lookupPublisher st sid false with
  | .error e => .error e
  | .ok (p, st1) =>
      let s := swapOutboundP p
      .ok ((RW.init.setContentType "application/json").write (encodeCandidateList s.1),
        setPublisher st1 sid s.2)

/-- `handleIceCandidateViewer` (main.go:592-621): the viewer lookup (with
creation) happens before the body is decoded. -/
def handleIceCandidateViewer (st : ServerState) (req : CandidateRequest) :
    RW × ServerState × List EngineCall :=
  let l := lookupViewer st req.sessionId
  let v := l.1
  let st1 := l.2
  match decodeCandidate req.body with
  | none => (httpError RW.init "Invalid ICE candidate" 400, st1, [])
  | some c =>
      match v.peerConnectionViewer with
      | none => (RW.init, st1, [])
      | some pc =>
          match pc.remoteDescription with
          | none =>
              (RW.init,
               setViewer st1 req.sessionId
                 { v with pendingRemoteCandidatesV := v.pendingRemoteCandidatesV ++ [c] },
               [])
          | some _ =>
              let pc' := { pc with addedCandidates := pc.addedCandidates ++ [c] }
              (RW.init,
               setViewer st1 req.sessionId
                 { v with peerConnectionViewer := some pc' },
               [EngineCall.addICECandidate c])

/-- `handleIceCandidatesViewer` (main.go:623-638). -/
def handleIceCandidatesViewer (st : ServerState) (sid : String) :
    RW × ServerState :=
  let l := lookupViewer st sid
  let v := l.1
  let st1 := l.2
  let s := swapOutboundV v
  ((RW.init.setContentType "application/json").write (encodeCandidateList s.1),
   setViewer st1 sid s.2)

/-! ## Outbound-candidate traces (for the at-most-once delivery claim) -/

/-- One event touching a publisher's outbound candidate queue: either the
engine's `OnICECandidate` callback discovers a local candidate, or a client
polls `/ice-candidates-p`. -/
inductive OutboundOp where
  | discover (c : ICECandidateInit)
  | poll
deriving DecidableEq, Repr

/-- Run a sequence of outbound-queue events against a publisher, collecting
the contents returned by each poll, in order. -/
def runOutbound : Publisher → List OutboundOp → Publisher × List (List ICECandidateInit)
  | p, [] => (p, [])
  | p, OutboundOp.discover c :: rest => runOutbound (onICECandidateP p (some c)) rest
  | p, OutboundOp.poll :: rest =>
      let s := swapOutboundP p
      let r := runOutbound s.2 rest
      (r.1, s.1 :: r.2)

/-- The candidates the engine discovered during a trace, in order. -/
def discovers : List OutboundOp → List ICECandidateInit
  | [] => []
  | OutboundOp.discover c :: rest => c :: discovers rest
  | OutboundOp.poll :: rest => discovers rest

/-- `regsBeforeRemote tr` holds when no callback registration occurs at or
after any `setRemoteDescription` call in the trace `tr` — i.e. every
registered callback was registered strictly before the remote description
was set. -/
def regsBeforeRemote : List EngineCall → Bool
  | [] => true
  | c :: rest =>
      if c.isSetRemote then
        rest.all (fun d => !d.isRegister) && regsBeforeRemote rest
      else
        regsBeforeRemote rest

/-! ## Helper lemmas about the keyed store and the response writer -/

theorem getAssoc_append_self {α : Type} (l : List (String × α)) (sid : String)
    (a : α) (h : getAssoc l sid = none) :
    getAssoc (l ++ [(sid, a)]) sid = some a := by
  induction l with
  | nil => simp [getAssoc]
  | cons hd tl ih =>
      obtain ⟨k, v⟩ := hd
      by_cases hk : k = sid
      · simp [getAssoc, hk] at h
      · simp [getAssoc, hk] at h ⊢
        exact ih h

theorem setAssoc_append_self {α : Type} (l : List (String × α)) (sid : String)
    (a b : α) (h : getAssoc l sid = none) :
    setAssoc (l ++ [(sid, a)]) sid b = l ++ [(sid, b)] := by
  induction l with
  | nil => simp [setAssoc]
  | cons hd tl ih =>
      obtain ⟨k, v⟩ := hd
      by_cases hk : k = sid
      · simp [getAssoc, hk] at h
      · simp [getAssoc, hk] at h
        simp [setAssoc, hk, ih h]

theorem getAssoc_setAssoc_self {α : Type} (l : List (String × α)) (sid : String)
    (p b : α) (h : getAssoc l sid = some p) :
    getAssoc (setAssoc l sid b) sid = some b := by
  induction l with
  | nil => simp [getAssoc] at h
  | cons hd tl ih =>
      obtain ⟨k, v⟩ := hd
      by_cases hk : k = sid
      · simp [getAssoc, setAssoc, hk]
      · simp [getAssoc, hk] at h
        simp [setAssoc, getAssoc, hk, ih h]

theorem RW.write_body (w : RW) (s : String) : (w.write s).body = w.body ++ [s] := by
  simp [RW.write, RW.writeHeader]
  by_cases h : w.committedStatus.isSome <;> simp [h]

theorem RW.write_committed_of_some (w : RW) (s : String)
    (h : w.committedStatus.isSome) :
    (w.write s).committedStatus = w.committedStatus ∧
    (w.write s).committedContentType = w.committedContentType := by
  simp [RW.write, RW.writeHeader, h]

theorem RW.write_committed_of_none (w : RW) (s : String)
    (h : w.committedStatus = none) :
    (w.write s).committedStatus = some 200 ∧
    (w.write s).committedContentType = w.headerContentType := by
  simp [RW.write, RW.writeHeader, h]

theorem writeAll_body (chunks : List String) (w : RW) :
    (writeAll w chunks).body = w.body ++ chunks := by
  induction chunks generalizing w with
  | nil => simp [writeAll]
  | cons hd tl ih =>
      have : writeAll w (hd :: tl) = writeAll (w.write hd) tl := rfl
      rw [this, ih, RW.write_body]
      simp

theorem writeAll_committed_of_some (chunks : List String) (w : RW)
    (h : w.committedStatus.isSome) :
    (writeAll w chunks).committedStatus = w.committedStatus ∧
    (writeAll w chunks).committedContentType = w.committedContentType := by
  induction chunks generalizing w with
  | nil => simp [writeAll]
  | cons hd tl ih =>
      have hw := RW.write_committed_of_some w hd h
      have : writeAll w (hd :: tl) = writeAll (w.write hd) tl := rfl
      rw [this]
      have h' : (w.write hd).committedStatus.isSome := by
        rw [hw.1]; exact h
      have := ih (w.write hd) h'
      rw [this.1, this.2, hw.1, hw.2]
      exact ⟨rfl, rfl⟩

theorem writeAll_init_committed (chunks : List String) (h : chunks ≠ []) :
    (writeAll RW.init chunks).committedStatus = some 200 ∧
    (writeAll RW.init chunks).committedContentType = none := by
  match chunks with
  | [] => exact absurd rfl h
  | hd :: tl =>
      have : writeAll RW.init (hd :: tl) = writeAll (RW.init.write hd) tl := rfl
      rw [this]
      have h1 : (RW.init.write hd).committedStatus = some 200 := rfl
      have h2 : (RW.init.write hd).committedContentType = none := rfl
      have hsome : (RW.init.write hd).committedStatus.isSome := by rw [h1]; rfl
      have := writeAll_committed_of_some tl (RW.init.write hd) hsome
      rw [this.1, this.2, h1, h2]
      exact ⟨rfl, rfl⟩

theorem setViewer_publishers (st : ServerState) (sid : String) (v : Viewer) :
    (setViewer st sid v).publishers = st.publishers := rfl

theorem lookupViewer_publishers (st : ServerState) (sid : String) :
    (lookupViewer st sid).2.publishers = st.publishers := by
  unfold lookupViewer
  cases getAssoc st.viewers sid <;> rfl

/-! ## Concrete fixtures used by the counterexample / failing-input theorems -/

def candA : ICECandidateInit := { candidate := "candidate:A" }

def candB : ICECandidateInit := { candidate := "candidate:B" }

def c1Offer : SessionDescription := { sdpType := "offer", sdp := "v=0 o" }

/-- A publisher session as it stands mid-`publishHandler`: the transport
instance exists and the callbacks are registered (main.go:168-274 have run),
but `SetRemoteDescription` (main.go:277) has not happened yet.  This is the
window the `pendingRemoteCandidatesP` buffer exists for: candidates posted
to `/ice-candidate-p` during it take the buffering branch (main.go:561-563). -/
def c1Publisher : Publisher := (publishSetup Publisher.init).1

def c1PublisherA : Publisher := { c1Publisher with pendingRemoteCandidatesP := [candA] }

def c1PublisherAB : Publisher :=
  { c1Publisher with pendingRemoteCandidatesP := [candA, candB] }

/-- **C1** (code bug, failing input).  Two candidates `A` then `B` posted
while the remote description is unset are buffered in arrival order and not
applied — that half of the claim holds.  But when the rest of
`publishHandler` then sets the remote description (`publishFinish`, i.e.
main.go:276-299), the buffer is NOT drained: no `AddICECandidate` call is
made, and `pendingRemoteCandidatesP` is still `[A, B]` while the remote
description is set — contradicting both the FIFO-drain sentence and the
invariant that the buffer is non-empty only while the remote description is
unset.  No code in main.go ever reads `pendingRemoteCandidatesP`. -/
theorem c1_pending_candidates_never_drained :
    handleIceCandidatePublisher { publishers := [("s", c1Publisher)] }
        ⟨"s", CandidateBody.candidateJson candA⟩
      = Except.ok (RW.init, { publishers := [("s", c1PublisherA)] }, []) ∧
    handleIceCandidatePublisher { publishers := [("s", c1PublisherA)] }
        ⟨"s", CandidateBody.candidateJson candB⟩
      = Except.ok (RW.init, { publishers := [("s", c1PublisherAB)] }, []) ∧
    (publishFinish c1PublisherAB c1Offer).1.pendingRemoteCandidatesP = [candA, candB] ∧
    ((publishFinish c1PublisherAB c1Offer).1.peerConnectionPublisher.map
        PeerConnection.remoteDescription) = some (some c1Offer) ∧
    ((publishFinish c1PublisherAB c1Offer).2.2).all (fun e => !e.isAddICECandidate) = true :=
  ⟨rfl, rfl, rfl, rfl, rfl⟩

/-- **C2** (counterexample).  A malformed offer posted to `/publish` from a
fresh session id mutates session state: the create-on-read lookup inserts a
new publisher entry before the body is even decoded, so the resulting state
differs from the initial one.  Moreover, when the request carries a cookie,
`publishHandler` echoes it into the response body before validation, which
commits status 200 — the "400" of the claim never reaches the wire. -/
theorem c2_malformed_offer_counterexample :
    (publishHandler ServerState.init ⟨"s1", [], OfferBody.invalidJson⟩).2.1
        ≠ ServerState.init ∧
    (publishHandler ServerState.init
        ⟨"s1", [("session-id", "abc")], OfferBody.invalidJson⟩).1.committedStatus
        = some 200 := by
  constructor
  · decide
  · rfl

/-- **C3** (counterexample).  With zero publishers (so certainly none in
state Connected), a POST `/view` whose body is not a decodable offer returns
400, not 503 — the claim's "every POST /view returns 503" fails on malformed
bodies, which are rejected before publisher selection. -/
theorem c3_no_publisher_counterexample :
    (ServerState.init).publishers = [] ∧
    (viewHandler ServerState.init ⟨"s", OfferBody.invalidJson⟩).1.committedStatus
        = some 400 ∧
    (viewHandler ServerState.init ⟨"s", OfferBody.invalidJson⟩).1.committedStatus
        ≠ some 503 := by
  refine ⟨rfl, rfl, by decide⟩

/-- **C4** (counterexample).  A well-formed view offer posted while zero
publishers are Connected: the response is 503, but session state was mutated
(a viewer entry now exists) and a Transport Engine handle is left dangling —
the handler created a peer connection and stored it on the viewer before
selecting a publisher, and the 503 path never closes it. -/
theorem c4_dangling_handle_counterexample :
    (viewHandler ServerState.init ⟨"s", OfferBody.sessionDesc "offer" "x"⟩).1.committedStatus
        = some 503 ∧
    (viewHandler ServerState.init ⟨"s", OfferBody.sessionDesc "offer" "x"⟩).2.1
        ≠ ServerState.init ∧
    (viewHandler ServerState.init ⟨"s", OfferBody.sessionDesc "offer" "x"⟩).2.2
        = [EngineCall.newPeerConnection] ∧
    getAssoc ((viewHandler ServerState.init
        ⟨"s", OfferBody.sessionDesc "offer" "x"⟩).2.1).viewers "s"
        = some { Viewer.init with peerConnectionViewer := some PeerConnection.init } ∧
    PeerConnection.init.closed = false := by
  refine ⟨rfl, by decide, rfl, rfl, rfl⟩

/-- **C7** (counterexample).  The overall-connection-state callback does set
the validity flag false on `failed`, but it does not make `failed` terminal:
a subsequent `connected` report sets `Valid` back to `true`
(main.go:220-223 runs unconditionally on every state change). -/
theorem c7_failed_then_connected_counterexample :
    (applyStatesP { Publisher.init with Valid := true }
        [PeerConnectionState.failed]).Valid = false ∧
    (applyStatesP { Publisher.init with Valid := true }
        [PeerConnectionState.failed, PeerConnectionState.connected]).Valid = true ∧
    (applyStatesV Viewer.init
        [PeerConnectionState.closed, PeerConnectionState.connected]).valid = true :=
  ⟨rfl, rfl, rfl⟩

def c8Candidate : ICECandidateInit := { candidate := "candidate:8" }

/-- **C8** (code bug, failing input).  For a session id that never had a
publisher, `lookupPublisher(..., create=false)` runs `p.(*Publisher)` on a
nil interface value (main.go:344), which panics — the handler crashes
instead of reporting the session absent, and the `p == nil` guard at
main.go:550 is unreachable.  Both candidate-exchange handlers that use the
read-only lookup are affected. -/
theorem c8_absent_publisher_lookup_panics :
    lookupPublisher ServerState.init "fresh" false
        = Except.error GoPanic.nilInterfaceConversion ∧
    handleIceCandidatePublisher ServerState.init
        ⟨"fresh", CandidateBody.candidateJson c8Candidate⟩
        = Except.error GoPanic.nilInterfaceConversion ∧
    handleIceCandidatesPublisher ServerState.init "fresh"
        = Except.error GoPanic.nilInterfaceConversion :=
  ⟨rfl, rfl, rfl⟩

/-- The answer `publishHandler` / `viewHandler` produce for a given offer:
`CreateAnswer` applied to the negotiated transport state. -/
def answerFor (offer : SessionDescription) : SessionDescription :=
  createAnswer { PeerConnection.init with
    localTracks := 1,
    remoteDescription := some offer }

/-- **C9** (counterexample).  A successful `/publish` whose request carries a
cookie: the response body is the cookie-echo line followed by the JSON
answer — not the JSON answer alone — and the `Content-Type` header set at
main.go:304 is not applied, because the header was already committed by the
first echo write. -/
theorem c9_response_body_counterexample :
    (publishHandler ServerState.init
        ⟨"s", [("session-id", "abc")], OfferBody.sessionDesc "offer" "x"⟩).1.body
        ≠ [encodeSD (answerFor ⟨"offer", "x"⟩)] ∧
    (publishHandler ServerState.init
        ⟨"s", [("session-id", "abc")], OfferBody.sessionDesc "offer" "x"⟩).1.committedContentType
        ≠ some "application/json" := by
  constructor
  · decide
  · decide

/-! ## More helper lemmas -/

def joinCands : List (List ICECandidateInit) → List ICECandidateInit
  | [] => []
  | l :: ls => l ++ joinCands ls

theorem onCSCP_valid_false_of_not_connected (p : Publisher)
    (e : PeerConnectionState) (he : e ≠ PeerConnectionState.connected)
    (hp : p.Valid = false) : (onConnectionStateChangeP p e).Valid = false := by
  cases e <;> simp_all [onConnectionStateChangeP]

theorem onCSCV_valid_false_of_not_connected (v : Viewer)
    (e : PeerConnectionState) (he : e ≠ PeerConnectionState.connected)
    (hv : v.valid = false) : (onConnectionStateChangeV v e).valid = false := by
  cases e <;> simp_all [onConnectionStateChangeV]

theorem applyStatesP_stays_invalid (evs : List PeerConnectionState)
    (p : Publisher) (hp : p.Valid = false)
    (h : PeerConnectionState.connected ∉ evs) :
    (applyStatesP p evs).Valid = false := by
  induction evs generalizing p with
  | nil => exact hp
  | cons e rest ih =>
      simp only [List.mem_cons, not_or] at h
      exact ih (onConnectionStateChangeP p e)
        (onCSCP_valid_false_of_not_connected p e (fun hc => h.1 hc.symm) hp) h.2

theorem applyStatesV_stays_invalid (evs : List PeerConnectionState)
    (v : Viewer) (hv : v.valid = false)
    (h : PeerConnectionState.connected ∉ evs) :
    (applyStatesV v evs).valid = false := by
  induction evs generalizing v with
  | nil => exact hv
  | cons e rest ih =>
      simp only [List.mem_cons, not_or] at h
      exact ih (onConnectionStateChangeV v e)
        (onCSCV_valid_false_of_not_connected v e (fun hc => h.1 hc.symm) hv) h.2

theorem randPublisher_valid (st : ServerState) (q : Publisher)
    (h : randPublisher st = some q) : q.Valid = true := by
  unfold randPublisher at h
  cases hf : st.publishers.find? (fun pr => pr.2.Valid) with
  | none => rw [hf] at h; cases h
  | some pr =>
      rw [hf] at h
      have hpred := List.find?_some hf
      cases h
      exact hpred

theorem randPublisher_none_of_all_invalid (st : ServerState)
    (h : ∀ pr ∈ st.publishers, pr.2.Valid = false) :
    randPublisher st = none := by
  unfold randPublisher
  have : st.publishers.find? (fun pr => pr.2.Valid) = none := by
    rw [List.find?_eq_none]
    intro pr hpr
    simp [h pr hpr]
  rw [this]

theorem randPublisher_congr (st st' : ServerState)
    (h : st'.publishers = st.publishers) :
    randPublisher st' = randPublisher st := by
  unfold randPublisher
  rw [h]

/-! ## Claim theorems (quantified) -/

/-- **C5** (confirmed).  (1) Over any interleaving of local-candidate
discoveries and polls, the concatenation of all poll results plus the final
queue contents equals exactly the list of discovered candidates, in order —
so every discovered candidate occurrence is returned by at most one poll
(at-most-once delivery) and never re-delivered.  (2) and (3): one poll of
`/ice-candidates-p` (resp. `/ice-candidates-v`) returns exactly the previous
queue contents and leaves the queue empty, atomically in the model. -/
theorem c5_outbound_poll_at_most_once :
    (∀ (p : Publisher) (ops : List OutboundOp),
        joinCands (runOutbound p ops).2 ++ (runOutbound p ops).1.iceCandidatesP
          = p.iceCandidatesP ++ discovers ops) ∧
    (∀ (st : ServerState) (sid : String) (p : Publisher),
        getAssoc st.publishers sid = some p →
        handleIceCandidatesPublisher st sid
          = Except.ok
              ((RW.init.setContentType "application/json").write
                  (encodeCandidateList p.iceCandidatesP),
               setPublisher st sid { p with iceCandidatesP := [] })) ∧
    (∀ (st : ServerState) (sid : String) (v : Viewer),
        getAssoc st.viewers sid = some v →
        handleIceCandidatesViewer st sid
          = ((RW.init.setContentType "application/json").write
                (encodeCandidateList v.iceCandidatesV),
             setViewer st sid { v with iceCandidatesV := [] })) := by
  refine ⟨?_, ?_, ?_⟩
  · intro p ops
    induction ops generalizing p with
    | nil => simp [runOutbound, discovers, joinCands]
    | cons op rest ih =>
        cases op with
        | discover c =>
            have h := ih (onICECandidateP p (some c))
            simp only [runOutbound, discovers]
            rw [h]
            simp [onICECandidateP]
        | poll =>
            have h := ih { p with iceCandidatesP := [] }
            simp only [runOutbound, discovers, swapOutboundP, joinCands]
            rw [List.append_assoc, h]
            simp
  · intro st sid p h
    simp [handleIceCandidatesPublisher, lookupPublisher, h, swapOutboundP]
  · intro st sid v h
    simp [handleIceCandidatesViewer, lookupViewer, h, swapOutboundV]

def c5Publisher : Publisher := { Publisher.init with iceCandidatesP := [candA, candB] }

def c5Viewer : Viewer := { Viewer.init with iceCandidatesV := [candB] }

def c5State : ServerState :=
  { publishers := [("s", c5Publisher)], viewers := [("s", c5Viewer)] }

theorem c5_outbound_poll_at_most_once_witness :
    handleIceCandidatesPublisher c5State "s"
      = Except.ok
          ((RW.init.setContentType "application/json").write
              (encodeCandidateList c5Publisher.iceCandidatesP),
           setPublisher c5State "s" { c5Publisher with iceCandidatesP := [] }) ∧
    handleIceCandidatesViewer c5State "s"
      = ((RW.init.setContentType "application/json").write
            (encodeCandidateList c5Viewer.iceCandidatesV),
         setViewer c5State "s" { c5Viewer with iceCandidatesV := [] }) :=
  ⟨c5_outbound_poll_at_most_once.2.1 c5State "s" c5Publisher rfl,
   c5_outbound_poll_at_most_once.2.2 c5State "s" c5Viewer rfl⟩

/-- The full Transport Engine call trace of a successful `/publish`. -/
def publishTrace (offer : SessionDescription) : List EngineCall :=
  [EngineCall.newPeerConnection, EngineCall.addTrack,
   EngineCall.registerCallback CallbackKind.iceConnState,
   EngineCall.registerCallback CallbackKind.iceCandidate,
   EngineCall.registerCallback CallbackKind.connState,
   EngineCall.registerCallback CallbackKind.track,
   EngineCall.setRemoteDescription offer, EngineCall.createAnswer,
   EngineCall.setLocalDescription (answerFor offer)]

/-- The full Transport Engine call trace of a successful `/view`. -/
def viewTrace (offer : SessionDescription) : List EngineCall :=
  [EngineCall.newPeerConnection, EngineCall.addTrack,
   EngineCall.registerCallback CallbackKind.iceCandidate,
   EngineCall.registerCallback CallbackKind.iceConnState,
   EngineCall.registerCallback CallbackKind.connState,
   EngineCall.setRemoteDescription offer, EngineCall.createAnswer,
   EngineCall.setLocalDescription (answerFor offer)]

/-- **C6** (confirmed).  In every run of `publishHandler` and `viewHandler`
(any state, any request), no callback registration occurs at or after a
`setRemoteDescription` call in the engine trace; and on the successful
paths the trace is exactly the expected sequence, in which all callback
registrations (candidate / connection-state / ICE-connection-state, plus
track for the publisher) strictly precede `setRemoteDescription`. -/
theorem c6_callbacks_registered_before_remote_description :
    (∀ st req, regsBeforeRemote (publishHandler st req).2.2 = true) ∧
    (∀ st req, regsBeforeRemote (viewHandler st req).2.2 = true) ∧
    (∀ (st : ServerState) (sid : String) (cookies : List (String × String))
        (ty sdp : String), isValidSDPType ty = true →
        (publishHandler st ⟨sid, cookies, OfferBody.sessionDesc ty sdp⟩).2.2
          = publishTrace ⟨ty, sdp⟩) ∧
    (∀ (st : ServerState) (sid ty sdp : String), isValidSDPType ty = true →
        (viewHandler st ⟨sid, OfferBody.sessionDesc ty sdp⟩).2.2
            = [EngineCall.newPeerConnection] ∨
        (viewHandler st ⟨sid, OfferBody.sessionDesc ty sdp⟩).2.2
            = viewTrace ⟨ty, sdp⟩) := by
  have hpub : ∀ (st : ServerState) (sid : String)
      (cookies : List (String × String)) (ty sdp : String),
      isValidSDPType ty = true →
      (publishHandler st ⟨sid, cookies, OfferBody.sessionDesc ty sdp⟩).2.2
        = publishTrace ⟨ty, sdp⟩ := by
    intro st sid cookies ty sdp hty
    cases h : getAssoc st.publishers sid <;>
      simp [publishHandler, lookupPublisher, h, decodeSessionDescription, hty,
        publishSetup, publishFinish, publishTrace, answerFor, createAnswer]
  have hview : ∀ (st : ServerState) (sid ty sdp : String),
      isValidSDPType ty = true →
      (viewHandler st ⟨sid, OfferBody.sessionDesc ty sdp⟩).2.2
          = [EngineCall.newPeerConnection] ∨
      (viewHandler st ⟨sid, OfferBody.sessionDesc ty sdp⟩).2.2
          = viewTrace ⟨ty, sdp⟩ := by
    intro st sid ty sdp hty
    cases hv : getAssoc st.viewers sid <;>
      · simp only [viewHandler, lookupViewer, hv, decodeSessionDescription, hty,
          if_true, reduceIte]
        generalize randPublisher _ = rp
        cases rp with
        | none => left; rfl
        | some p =>
            cases htr : p.publisherTrack with
            | none => left; simp only [htr]
            | some tr =>
                right
                simp only [htr]
                simp [viewTrace, answerFor, createAnswer]
  refine ⟨?_, ?_, hpub, hview⟩
  · intro st req
    obtain ⟨sid, cookies, body⟩ := req
    cases body with
    | invalidJson =>
        cases h : getAssoc st.publishers sid <;>
          simp [publishHandler, lookupPublisher, h, decodeSessionDescription,
            regsBeforeRemote]
    | sessionDesc ty sdp =>
        by_cases hty : isValidSDPType ty = true
        · rw [hpub st sid cookies ty sdp hty]
          rfl
        · have hty' : isValidSDPType ty = false := by
            revert hty; cases isValidSDPType ty <;> simp
          cases h : getAssoc st.publishers sid <;>
            simp [publishHandler, lookupPublisher, h, decodeSessionDescription,
              hty', regsBeforeRemote]
  · intro st req
    obtain ⟨sid, body⟩ := req
    cases body with
    | invalidJson =>
        cases hv : getAssoc st.viewers sid <;>
          simp [viewHandler, lookupViewer, hv, decodeSessionDescription,
            regsBeforeRemote]
    | sessionDesc ty sdp =>
        by_cases hty : isValidSDPType ty = true
        · rcases hview st sid ty sdp hty with h | h <;> rw [h] <;> rfl
        · have hty' : isValidSDPType ty = false := by
            revert hty; cases isValidSDPType ty <;> simp
          cases hv : getAssoc st.viewers sid <;>
            simp [viewHandler, lookupViewer, hv, decodeSessionDescription,
              hty', regsBeforeRemote]

def c6ViewState : ServerState :=
  { publishers := [("pub",
      { Publisher.init with
        Valid := true,
        publisherTrack := some { mimeType := "video/VP8" } })] }

theorem c6_callbacks_registered_before_remote_description_witness :
    (publishHandler ServerState.init
        ⟨"s", [], OfferBody.sessionDesc "offer" "x"⟩).2.2
      = publishTrace ⟨"offer", "x"⟩ ∧
    ((viewHandler c6ViewState ⟨"s", OfferBody.sessionDesc "offer" "x"⟩).2.2
        = [EngineCall.newPeerConnection] ∨
     (viewHandler c6ViewState ⟨"s", OfferBody.sessionDesc "offer" "x"⟩).2.2
        = viewTrace ⟨"offer", "x"⟩) :=
  ⟨c6_callbacks_registered_before_remote_description.2.2.1
      ServerState.init "s" [] "offer" "x" rfl,
   c6_callbacks_registered_before_remote_description.2.2.2
      c6ViewState "s" "offer" "x" rfl⟩

/-- **C7** (corrected).  On a `failed` or `closed` report the callback sets
the validity flag false (and touches nothing else of the session), and the
flag stays false across any further reports as long as no `connected`
report arrives; an invalid publisher is never returned by selection.  (The
un-amended claim — false *forever* — fails because a later `connected`
report re-validates the session; see the counterexample.) -/
theorem c7_terminal_invalidity_amended :
    (∀ (p : Publisher) (s : PeerConnectionState),
        s = PeerConnectionState.failed ∨ s = PeerConnectionState.closed →
        (onConnectionStateChangeP p s).Valid = false ∧
        (onConnectionStateChangeP p s).peerConnectionPublisher
            = p.peerConnectionPublisher ∧
        (onConnectionStateChangeP p s).publisherTrack = p.publisherTrack) ∧
    (∀ (p : Publisher) (pre post : List PeerConnectionState)
        (s : PeerConnectionState),
        s = PeerConnectionState.failed ∨ s = PeerConnectionState.closed →
        PeerConnectionState.connected ∉ post →
        (applyStatesP p (pre ++ s :: post)).Valid = false) ∧
    (∀ (v : Viewer) (pre post : List PeerConnectionState)
        (s : PeerConnectionState),
        s = PeerConnectionState.failed ∨ s = PeerConnectionState.closed →
        PeerConnectionState.connected ∉ post →
        (applyStatesV v (pre ++ s :: post)).valid = false) ∧
    (∀ (st : ServerState) (q : Publisher),
        randPublisher st = some q → q.Valid = true) := by
  refine ⟨?_, ?_, ?_, randPublisher_valid⟩
  · intro p s hs
    rcases hs with h | h <;> subst h <;>
      exact ⟨rfl, rfl, rfl⟩
  · intro p pre post s hs hpost
    have hsplit : applyStatesP p (pre ++ s :: post)
        = applyStatesP (onConnectionStateChangeP (applyStatesP p pre) s) post := by
      simp [applyStatesP, List.foldl_append]
    rw [hsplit]
    refine applyStatesP_stays_invalid post _ ?_ hpost
    rcases hs with h | h <;> subst h <;> rfl
  · intro v pre post s hs hpost
    have hsplit : applyStatesV v (pre ++ s :: post)
        = applyStatesV (onConnectionStateChangeV (applyStatesV v pre) s) post := by
      simp [applyStatesV, List.foldl_append]
    rw [hsplit]
    refine applyStatesV_stays_invalid post _ ?_ hpost
    rcases hs with h | h <;> subst h <;> rfl

theorem RW.setContentType_committed (w : RW) (ct : String) :
    (w.setContentType ct).committedStatus = w.committedStatus ∧
    (w.setContentType ct).committedContentType = w.committedContentType :=
  ⟨rfl, rfl⟩

theorem httpError_committed_of_some (w : RW) (msg : String) (code : Nat)
    (h : w.committedStatus.isSome) :
    (httpError w msg code).committedStatus = w.committedStatus ∧
    (httpError w msg code).committedContentType = w.committedContentType := by
  have h1 : (w.setContentType "text/plain; charset=utf-8").committedStatus
      = w.committedStatus := rfl
  have h2 : (w.setContentType "text/plain; charset=utf-8").committedContentType
      = w.committedContentType := rfl
  have h3 : ((w.setContentType "text/plain; charset=utf-8").writeHeader code)
      = w.setContentType "text/plain; charset=utf-8" := by
    unfold RW.writeHeader
    rw [h1]
    simp [h]
  unfold httpError
  rw [h3]
  have h4 := RW.write_committed_of_some (w.setContentType "text/plain; charset=utf-8")
      (msg ++ "\n") (by rw [h1]; exact h)
  rw [h4.1, h4.2, h1, h2]
  exact ⟨rfl, rfl⟩

/-- **C2** (corrected).  For every malformed offer: `/view` returns 400 with
no Transport Engine call; `/publish` returns 400 when the request carries no
cookies, but with cookies the pre-validation cookie echo commits status 200;
in both handlers no transport instance is created (empty engine trace), and
an existing session entry is untouched — but for a fresh session id the
create-on-read lookup has already inserted a new (fresh, connection-less)
session entry before validation, so the registry IS mutated. -/
theorem c2_malformed_offer_amended (st : ServerState) (sid : String)
    (cookies : List (String × String)) (body : OfferBody)
    (h : decodeSessionDescription body = none) :
    ((cookies = [] →
        (publishHandler st ⟨sid, cookies, body⟩).1.committedStatus = some 400) ∧
     (cookies ≠ [] →
        (publishHandler st ⟨sid, cookies, body⟩).1.committedStatus = some 200) ∧
     (publishHandler st ⟨sid, cookies, body⟩).2.2 = [] ∧
     (getAssoc st.publishers sid = none →
        getAssoc (publishHandler st ⟨sid, cookies, body⟩).2.1.publishers sid
          = some Publisher.init) ∧
     (∀ p, getAssoc st.publishers sid = some p →
        (publishHandler st ⟨sid, cookies, body⟩).2.1 = st)) ∧
    ((viewHandler st ⟨sid, body⟩).1.committedStatus = some 400 ∧
     (viewHandler st ⟨sid, body⟩).2.2 = [] ∧
     (getAssoc st.viewers sid = none →
        getAssoc (viewHandler st ⟨sid, body⟩).2.1.viewers sid = some Viewer.init) ∧
     (∀ v, getAssoc st.viewers sid = some v →
        (viewHandler st ⟨sid, body⟩).2.1 = st)) := by
  have hstat400 : cookies = [] →
      (httpError (writeAll RW.init (cookieEcho cookies)) "Invalid offer" 400).committedStatus
        = some 400 := by
    intro hc; subst hc; rfl
  have hstat200 : cookies ≠ [] →
      (httpError (writeAll RW.init (cookieEcho cookies)) "Invalid offer" 400).committedStatus
        = some 200 := by
    intro hc
    have hne : cookieEcho cookies ≠ [] := by
      simp [cookieEcho, hc]
    have hcom := writeAll_init_committed (cookieEcho cookies) hne
    have hsome : (writeAll RW.init (cookieEcho cookies)).committedStatus.isSome := by
      rw [hcom.1]; rfl
    rw [(httpError_committed_of_some _ "Invalid offer" 400 hsome).1, hcom.1]
  constructor
  · cases hp : getAssoc st.publishers sid with
    | none =>
        have hrun : publishHandler st ⟨sid, cookies, body⟩
            = (httpError (writeAll RW.init (cookieEcho cookies)) "Invalid offer" 400,
               { st with publishers := st.publishers ++ [(sid, Publisher.init)] },
               []) := by
          simp [publishHandler, lookupPublisher, hp, h]
        refine ⟨?_, ?_, ?_, ?_, ?_⟩
        · intro hc; rw [hrun]; exact hstat400 hc
        · intro hc; rw [hrun]; exact hstat200 hc
        · rw [hrun]
        · intro _; rw [hrun]
          exact getAssoc_append_self st.publishers sid Publisher.init hp
        · intro p hcontra
          exact Option.noConfusion hcontra
    | some p =>
        have hrun : publishHandler st ⟨sid, cookies, body⟩
            = (httpError (writeAll RW.init (cookieEcho cookies)) "Invalid offer" 400,
               st, []) := by
          simp [publishHandler, lookupPublisher, hp, h]
        refine ⟨?_, ?_, ?_, ?_, ?_⟩
        · intro hc; rw [hrun]; exact hstat400 hc
        · intro hc; rw [hrun]; exact hstat200 hc
        · rw [hrun]
        · intro hcontra
          exact Option.noConfusion hcontra
        · intro q hq; rw [hrun]
  · cases hv : getAssoc st.viewers sid with
    | none =>
        have hrun : viewHandler st ⟨sid, body⟩
            = (httpError RW.init "Invalid offer" 400,
               { st with viewers := st.viewers ++ [(sid, Viewer.init)] }, []) := by
          simp [viewHandler, lookupViewer, hv, h]
        refine ⟨?_, ?_, ?_, ?_⟩
        · rw [hrun]; rfl
        · rw [hrun]
        · intro _; rw [hrun]
          exact getAssoc_append_self st.viewers sid Viewer.init hv
        · intro v hcontra
          exact Option.noConfusion hcontra
    | some v =>
        have hrun : viewHandler st ⟨sid, body⟩
            = (httpError RW.init "Invalid offer" 400, st, []) := by
          simp [viewHandler, lookupViewer, hv, h]
        refine ⟨?_, ?_, ?_, ?_⟩
        · rw [hrun]; rfl
        · rw [hrun]
        · intro hcontra
          exact Option.noConfusion hcontra
        · intro w hw; rw [hrun]

theorem c2_malformed_offer_amended_witness :
    decodeSessionDescription OfferBody.invalidJson = none ∧
    ((publishHandler ServerState.init ⟨"w2", [], OfferBody.invalidJson⟩).1.committedStatus
        = some 400) ∧
    getAssoc (publishHandler ServerState.init
        ⟨"w2", [], OfferBody.invalidJson⟩).2.1.publishers "w2" = some Publisher.init ∧
    (viewHandler ServerState.init ⟨"w2", OfferBody.invalidJson⟩).1.committedStatus
        = some 400 :=
  ⟨rfl,
   (c2_malformed_offer_amended ServerState.init "w2" [] OfferBody.invalidJson rfl).1.1 rfl,
   (c2_malformed_offer_amended ServerState.init "w2" [] OfferBody.invalidJson rfl).1.2.2.2.1 rfl,
   (c2_malformed_offer_amended ServerState.init "w2" [] OfferBody.invalidJson rfl).2.1⟩

/-- The viewer record as stored right after `viewHandler` creates and
attaches the fresh peer connection (main.go:378-384). -/
def freshViewerWithPC : Viewer :=
  { Viewer.init with peerConnectionViewer := some PeerConnection.init }

/-- **C3** (corrected).  For every POST `/view` whose body decodes as an
offer, while no publisher has `Valid = true` the response is 503 and the
viewer session that exists afterwards is not Connected (its validity flag is
false); publisher selection returns only a publisher whose flag is true, and
returns none when no publisher is eligible.  (The un-amended claim fails
only for bodies that do not decode: those get 400, see the
counterexample.) -/
theorem c3_view_503_amended (st : ServerState) (sid ty sdp : String)
    (hty : isValidSDPType ty = true)
    (hnone : ∀ pr ∈ st.publishers, pr.2.Valid = false) :
    (viewHandler st ⟨sid, OfferBody.sessionDesc ty sdp⟩).1.committedStatus
        = some 503 ∧
    (getAssoc st.viewers sid = none →
        getAssoc (viewHandler st ⟨sid, OfferBody.sessionDesc ty sdp⟩).2.1.viewers sid
          = some freshViewerWithPC) ∧
    freshViewerWithPC.valid = false ∧
    randPublisher st = none ∧
    (∀ (st2 : ServerState) (q : Publisher),
        randPublisher st2 = some q → q.Valid = true) ∧
    (∀ st2 : ServerState, (∀ pr ∈ st2.publishers, pr.2.Valid = false) →
        randPublisher st2 = none) := by
  have hrp : randPublisher st = none := randPublisher_none_of_all_invalid st hnone
  have hfind : st.publishers.find? (fun pr => pr.2.Valid) = none := by
    rw [List.find?_eq_none]
    intro pr hpr
    simp [hnone pr hpr]
  cases hv : getAssoc st.viewers sid with
  | none =>
      have hrun : viewHandler st ⟨sid, OfferBody.sessionDesc ty sdp⟩
          = (httpError RW.init "No Publisher available" 503,
             setViewer { st with viewers := st.viewers ++ [(sid, Viewer.init)] } sid
               freshViewerWithPC,
             [EngineCall.newPeerConnection]) := by
        simp [viewHandler, lookupViewer, hv, decodeSessionDescription, hty,
          randPublisher, setViewer, hfind, freshViewerWithPC]
      refine ⟨?_, ?_, rfl, hrp, randPublisher_valid, randPublisher_none_of_all_invalid⟩
      · rw [hrun]; rfl
      · intro _
        rw [hrun]
        show getAssoc (setAssoc (st.viewers ++ [(sid, Viewer.init)]) sid
            freshViewerWithPC) sid = some freshViewerWithPC
        rw [setAssoc_append_self st.viewers sid Viewer.init freshViewerWithPC hv]
        exact getAssoc_append_self st.viewers sid freshViewerWithPC hv
  | some v =>
      have hrun : viewHandler st ⟨sid, OfferBody.sessionDesc ty sdp⟩
          = (httpError RW.init "No Publisher available" 503,
             setViewer st sid
               { v with peerConnectionViewer := some PeerConnection.init },
             [EngineCall.newPeerConnection]) := by
        simp [viewHandler, lookupViewer, hv, decodeSessionDescription, hty,
          randPublisher, setViewer, hfind]
      refine ⟨?_, ?_, rfl, hrp, randPublisher_valid, randPublisher_none_of_all_invalid⟩
      · rw [hrun]; rfl
      · intro hcontra
        exact Option.noConfusion hcontra

theorem c3_view_503_amended_witness :
    (viewHandler ServerState.init ⟨"w3", OfferBody.sessionDesc "offer" "x"⟩).1.committedStatus
        = some 503 ∧
    getAssoc (viewHandler ServerState.init
        ⟨"w3", OfferBody.sessionDesc "offer" "x"⟩).2.1.viewers "w3"
        = some freshViewerWithPC ∧
    randPublisher ServerState.init = none :=
  ⟨(c3_view_503_amended ServerState.init "w3" "offer" "x" rfl
      (by intro pr h; simp [ServerState.init] at h)).1,
   (c3_view_503_amended ServerState.init "w3" "offer" "x" rfl
      (by intro pr h; simp [ServerState.init] at h)).2.1 rfl,
   (c3_view_503_amended ServerState.init "w3" "offer" "x" rfl
      (by intro pr h; simp [ServerState.init] at h)).2.2.2.1⟩

/-- **C4** (corrected).  When `/view` fails with 503 because no publisher is
eligible, no Connected viewer arises and the publisher registry is
untouched — but the handler has already created a Transport Engine instance
and stored it on the Viewer Session (main.go:378-384, before publisher
selection), and the 503 path never closes it: the handle is left dangling,
and the viewer registry was mutated.  (The un-amended "no session mutation,
no dangling handle" fails; see the counterexample.) -/
theorem c4_view_503_dangling_amended (st : ServerState) (sid ty sdp : String)
    (hty : isValidSDPType ty = true)
    (hnone : ∀ pr ∈ st.publishers, pr.2.Valid = false) :
    (viewHandler st ⟨sid, OfferBody.sessionDesc ty sdp⟩).1.committedStatus
        = some 503 ∧
    (∃ v', getAssoc (viewHandler st ⟨sid, OfferBody.sessionDesc ty sdp⟩).2.1.viewers sid
          = some v' ∧
        v'.peerConnectionViewer = some PeerConnection.init) ∧
    PeerConnection.init.closed = false ∧
    (viewHandler st ⟨sid, OfferBody.sessionDesc ty sdp⟩).2.2
        = [EngineCall.newPeerConnection] ∧
    EngineCall.close ∉ (viewHandler st ⟨sid, OfferBody.sessionDesc ty sdp⟩).2.2 ∧
    (viewHandler st ⟨sid, OfferBody.sessionDesc ty sdp⟩).2.1.publishers
        = st.publishers := by
  have hfind : st.publishers.find? (fun pr => pr.2.Valid) = none := by
    rw [List.find?_eq_none]
    intro pr hpr
    simp [hnone pr hpr]
  cases hv : getAssoc st.viewers sid with
  | none =>
      have hrun : viewHandler st ⟨sid, OfferBody.sessionDesc ty sdp⟩
          = (httpError RW.init "No Publisher available" 503,
             setViewer { st with viewers := st.viewers ++ [(sid, Viewer.init)] } sid
               freshViewerWithPC,
             [EngineCall.newPeerConnection]) := by
        simp [viewHandler, lookupViewer, hv, decodeSessionDescription, hty,
          randPublisher, setViewer, hfind, freshViewerWithPC]
      refine ⟨?_, ?_, rfl, ?_, ?_, ?_⟩
      · rw [hrun]; rfl
      · refine ⟨freshViewerWithPC, ?_, rfl⟩
        rw [hrun]
        show getAssoc (setAssoc (st.viewers ++ [(sid, Viewer.init)]) sid
            freshViewerWithPC) sid = some freshViewerWithPC
        rw [setAssoc_append_self st.viewers sid Viewer.init freshViewerWithPC hv]
        exact getAssoc_append_self st.viewers sid freshViewerWithPC hv
      · rw [hrun]
      · rw [hrun]
        show EngineCall.close ∉ [EngineCall.newPeerConnection]
        decide
      · rw [hrun]; rfl
  | some v =>
      have hrun : viewHandler st ⟨sid, OfferBody.sessionDesc ty sdp⟩
          = (httpError RW.init "No Publisher available" 503,
             setViewer st sid
               { v with peerConnectionViewer := some PeerConnection.init },
             [EngineCall.newPeerConnection]) := by
        simp [viewHandler, lookupViewer, hv, decodeSessionDescription, hty,
          randPublisher, setViewer, hfind]
      refine ⟨?_, ?_, rfl, ?_, ?_, ?_⟩
      · rw [hrun]; rfl
      · refine ⟨{ v with peerConnectionViewer := some PeerConnection.init }, ?_, rfl⟩
        rw [hrun]
        exact getAssoc_setAssoc_self st.viewers sid v _ hv
      · rw [hrun]
      · rw [hrun]
        show EngineCall.close ∉ [EngineCall.newPeerConnection]
        decide
      · rw [hrun]; rfl

theorem c4_view_503_dangling_amended_witness :
    (viewHandler ServerState.init ⟨"w4", OfferBody.sessionDesc "offer" "x"⟩).1.committedStatus
        = some 503 ∧
    (viewHandler ServerState.init ⟨"w4", OfferBody.sessionDesc "offer" "x"⟩).2.2
        = [EngineCall.newPeerConnection] ∧
    (viewHandler ServerState.init
        ⟨"w4", OfferBody.sessionDesc "offer" "x"⟩).2.1.publishers
        = (ServerState.init).publishers :=
  have hc4 := c4_view_503_dangling_amended ServerState.init "w4" "offer" "x" rfl
    (by intro pr hpr; simp [ServerState.init] at hpr)
  ⟨hc4.1, hc4.2.2.2.1, hc4.2.2.2.2.2⟩

/-- **C9** (corrected).  For every successful `/publish`, the response body
is the cookie-echo lines (one per request cookie) followed by exactly the
JSON-encoded answer of type `"answer"`; when the request carries no cookies
the body is exactly the JSON answer, served with status 200 and
`Content-Type: application/json`; when it carries cookies the header was
committed by the first echo write, so the `Content-Type` set afterwards is
not applied.  (The un-amended "nothing else in the body" fails whenever the
request carries cookies; see the counterexample.) -/
theorem c9_publish_response_amended (st : ServerState) (sid : String)
    (cookies : List (String × String)) (ty sdp : String)
    (hty : isValidSDPType ty = true) :
    (publishHandler st ⟨sid, cookies, OfferBody.sessionDesc ty sdp⟩).1.body
        = cookieEcho cookies ++ [encodeSD (answerFor ⟨ty, sdp⟩)] ∧
    (answerFor ⟨ty, sdp⟩).sdpType = "answer" ∧
    (cookies = [] →
        (publishHandler st ⟨sid, cookies, OfferBody.sessionDesc ty sdp⟩).1.committedStatus
            = some 200 ∧
        (publishHandler st ⟨sid, cookies, OfferBody.sessionDesc ty sdp⟩).1.committedContentType
            = some "application/json") ∧
    (cookies ≠ [] →
        (publishHandler st ⟨sid, cookies, OfferBody.sessionDesc ty sdp⟩).1.committedContentType
            = none) := by
  have hresp : (publishHandler st ⟨sid, cookies, OfferBody.sessionDesc ty sdp⟩).1
      = ((writeAll RW.init (cookieEcho cookies)).setContentType "application/json").write
          (encodeSD (answerFor ⟨ty, sdp⟩)) := by
    cases hp : getAssoc st.publishers sid <;>
      simp [publishHandler, lookupPublisher, hp, decodeSessionDescription, hty,
        publishSetup, publishFinish, answerFor, createAnswer]
  refine ⟨?_, rfl, ?_, ?_⟩
  · rw [hresp, RW.write_body]
    have hset : ((writeAll RW.init (cookieEcho cookies)).setContentType
        "application/json").body = (writeAll RW.init (cookieEcho cookies)).body := rfl
    rw [hset, writeAll_body]
    rfl
  · intro hc
    subst hc
    rw [hresp]
    exact ⟨rfl, rfl⟩
  · intro hc
    have hne : cookieEcho cookies ≠ [] := by simp [cookieEcho, hc]
    have hcom := writeAll_init_committed (cookieEcho cookies) hne
    have hsome : ((writeAll RW.init (cookieEcho cookies)).setContentType
        "application/json").committedStatus.isSome := by
      have hcs : ((writeAll RW.init (cookieEcho cookies)).setContentType
          "application/json").committedStatus
          = (writeAll RW.init (cookieEcho cookies)).committedStatus := rfl
      rw [hcs, hcom.1]
      rfl
    rw [hresp]
    have hw := RW.write_committed_of_some _ (encodeSD (answerFor ⟨ty, sdp⟩)) hsome
    rw [hw.2]
    show (writeAll RW.init (cookieEcho cookies)).committedContentType = none
    exact hcom.2

theorem c9_publish_response_amended_witness :
    (publishHandler ServerState.init
        ⟨"w9", [], OfferBody.sessionDesc "offer" "sdp9"⟩).1.body
        = cookieEcho [] ++ [encodeSD (answerFor ⟨"offer", "sdp9"⟩)] ∧
    (publishHandler ServerState.init
        ⟨"w9", [], OfferBody.sessionDesc "offer" "sdp9"⟩).1.committedContentType
        = some "application/json" :=
  have h := c9_publish_response_amended ServerState.init "w9" [] "offer" "sdp9" rfl
  ⟨h.1, (h.2.2.1 rfl).2⟩

/-- **C10** (confirmed).  The viewer candidate endpoints create the Viewer
Session on lookup when absent: `GET /ice-candidates-v` always answers 200
with a JSON array (the current outbound queue; empty for a session id never
seen before) and never reports the session absent, and after either viewer
candidate endpoint runs, the session id is present in the viewer registry. -/
theorem c10_viewer_candidate_endpoints_create_on_read :
    (∀ (st : ServerState) (sid : String),
        (handleIceCandidatesViewer st sid).1.committedStatus = some 200 ∧
        (handleIceCandidatesViewer st sid).1.committedContentType
            = some "application/json" ∧
        (handleIceCandidatesViewer st sid).1.body
            = [encodeCandidateList
                (((getAssoc st.viewers sid).map Viewer.iceCandidatesV).getD [])] ∧
        (getAssoc (handleIceCandidatesViewer st sid).2.viewers sid).isSome = true ∧
        (getAssoc st.viewers sid = none →
            (handleIceCandidatesViewer st sid).1.body = [encodeCandidateList []])) ∧
    (∀ (st : ServerState) (req : CandidateRequest),
        (getAssoc (handleIceCandidateViewer st req).2.1.viewers req.sessionId).isSome
            = true) := by
  constructor
  · intro st sid
    cases hv : getAssoc st.viewers sid with
    | none =>
        have hrun : handleIceCandidatesViewer st sid
            = ((RW.init.setContentType "application/json").write (encodeCandidateList []),
               setViewer { st with viewers := st.viewers ++ [(sid, Viewer.init)] } sid
                 { Viewer.init with iceCandidatesV := [] }) := by
          simp [handleIceCandidatesViewer, lookupViewer, hv, swapOutboundV,
            Viewer.init]
        refine ⟨?_, ?_, ?_, ?_, ?_⟩
        · rw [hrun]; rfl
        · rw [hrun]; rfl
        · rw [hrun]; rfl
        · rw [hrun]
          simp only [setViewer]
          rw [setAssoc_append_self st.viewers sid Viewer.init
              { Viewer.init with iceCandidatesV := [] } hv]
          rw [getAssoc_append_self st.viewers sid
              { Viewer.init with iceCandidatesV := [] } hv]
          rfl
        · intro _
          rw [hrun]; rfl
    | some v =>
        have hrun : handleIceCandidatesViewer st sid
            = ((RW.init.setContentType "application/json").write
                  (encodeCandidateList v.iceCandidatesV),
               setViewer st sid { v with iceCandidatesV := [] }) := by
          simp [handleIceCandidatesViewer, lookupViewer, hv, swapOutboundV]
        refine ⟨?_, ?_, ?_, ?_, ?_⟩
        · rw [hrun]; rfl
        · rw [hrun]; rfl
        · rw [hrun]; rfl
        · rw [hrun]
          simp only [setViewer]
          rw [getAssoc_setAssoc_self st.viewers sid v
              { v with iceCandidatesV := [] } hv]
          rfl
        · intro hcontra
          exact Option.noConfusion hcontra
  · intro st req
    obtain ⟨sid, body⟩ := req
    cases hv : getAssoc st.viewers sid with
    | none =>
        have hstep : (handleIceCandidateViewer st ⟨sid, body⟩).2.1
            = { st with viewers := st.viewers ++ [(sid, Viewer.init)] } := by
          cases body <;>
            simp [handleIceCandidateViewer, lookupViewer, hv, decodeCandidate,
              Viewer.init]
        rw [hstep]
        show (getAssoc (st.viewers ++ [(sid, Viewer.init)]) sid).isSome = true
        rw [getAssoc_append_self st.viewers sid Viewer.init hv]
        rfl
    | some v =>
        cases body with
        | invalidJson =>
            have hstep : (handleIceCandidateViewer st
                ⟨sid, CandidateBody.invalidJson⟩).2.1 = st := by
              simp [handleIceCandidateViewer, lookupViewer, hv, decodeCandidate]
            rw [hstep, hv]
            rfl
        | candidateJson c =>
            cases hpc : v.peerConnectionViewer with
            | none =>
                have hstep : (handleIceCandidateViewer st
                    ⟨sid, CandidateBody.candidateJson c⟩).2.1 = st := by
                  simp [handleIceCandidateViewer, lookupViewer, hv, decodeCandidate, hpc]
                rw [hstep, hv]
                rfl
            | some pc =>
                cases hrd : pc.remoteDescription with
                | none =>
                    have hstep : (handleIceCandidateViewer st
                        ⟨sid, CandidateBody.candidateJson c⟩).2.1
                        = setViewer st sid
                            { v with pendingRemoteCandidatesV :=
                                v.pendingRemoteCandidatesV ++ [c] } := by
                      simp [handleIceCandidateViewer, lookupViewer, hv,
                        decodeCandidate, hpc, hrd]
                    rw [hstep]
                    simp only [setViewer]
                    rw [getAssoc_setAssoc_self st.viewers sid v
                        { v with pendingRemoteCandidatesV :=
                            v.pendingRemoteCandidatesV ++ [c] } hv]
                    rfl
                | some rd =>
                    have hstep : (handleIceCandidateViewer st
                        ⟨sid, CandidateBody.candidateJson c⟩).2.1
                        = setViewer st sid { v with peerConnectionViewer := some { pc with addedCandidates := pc.addedCandidates ++ [c] } } := by
                      simp [handleIceCandidateViewer, lookupViewer, hv,
                        decodeCandidate, hpc, hrd]
                    rw [hstep]
                    simp only [setViewer]
                    rw [getAssoc_setAssoc_self st.viewers sid v { v with peerConnectionViewer := some { pc with addedCandidates := pc.addedCandidates ++ [c] } } hv]
                    rfl

theorem c10_viewer_candidate_endpoints_create_on_read_witness :
    (handleIceCandidatesViewer ServerState.init "w10").1.committedStatus = some 200 ∧
    (handleIceCandidatesViewer ServerState.init "w10").1.body
        = [encodeCandidateList []] ∧
    (getAssoc (handleIceCandidatesViewer ServerState.init "w10").2.viewers "w10").isSome
        = true :=
  have h := c10_viewer_candidate_endpoints_create_on_read.1 ServerState.init "w10"
  ⟨h.1, h.2.2.2.2 rfl, h.2.2.2.1⟩

theorem c7_terminal_invalidity_amended_witness :
    (applyStatesP Publisher.init
        [PeerConnectionState.connected, PeerConnectionState.failed,
         PeerConnectionState.disconnected]).Valid = false ∧
    (applyStatesV Viewer.init
        [PeerConnectionState.connected, PeerConnectionState.closed]).valid = false :=
  ⟨c7_terminal_invalidity_amended.2.1 Publisher.init
      [PeerConnectionState.connected] [PeerConnectionState.disconnected]
      PeerConnectionState.failed (Or.inl rfl) (by decide),
   c7_terminal_invalidity_amended.2.2.1 Viewer.init
      [PeerConnectionState.connected] [] PeerConnectionState.closed
      (Or.inr rfl) (by decide)⟩

end Wstest
